import Mathlib

/-!
# Garden Linux cloud-init generator: the values resolver

A shallow embedding of the callback that `pkg/generator/generator.go` hands to
`ostemplate.NewCloudInitGenerator` (lines 55-78), together with the Go data it
touches: the `map[string]interface{}` it builds, the `(map, error)` pair it
returns, the package-level `decoder` and the `OperatingSystemConfig` it reads.
-/

set_option autoImplicit false

namespace Gardenlinux

/-! ## Go values -/

/-- One byte of a Go `[]byte`. -/
abbrev Byte := Fin 256

/-- Dynamic value held by a Go `interface{}`: the nil interface, or a value of one
of a few dynamic types. The resolver only ever stores strings. -/
inductive Interface where
  | nil
  | string (s : String)
  | int (i : Int)
  | bool (b : Bool)
  deriving DecidableEq, Repr

/-- A non-nil Go `map[string]interface{}` as an association list without
duplicate keys, in insertion order. -/
abbrev GoMap := List (String × Interface)

namespace GoMap

/-- Map assignment `m[k] = v`: overwrite the entry of `k` when there is one,
add a new entry otherwise. -/
def set : GoMap → String → Interface → GoMap
  | [], k, v => [(k, v)]
  | (k0, v0) :: rest, k, v =>
    if k0 = k then (k, v) :: rest else (k0, v0) :: set rest k v

/-- Map index `v, ok := m[k]`. -/
def get? : GoMap → String → Option Interface
  | [], _ => none
  | (k0, v0) :: rest, k => if k0 = k then some v0 else get? rest k

end GoMap

/-- Go `len(m)` for a possibly nil map: a nil map has length zero. -/
def mapLen : Option GoMap → Nat
  | none => 0
  | some m => m.length

/-- Go `v, ok := m[k]` for a possibly nil map: reading a nil map finds nothing. -/
def mapIndex : Option GoMap → String → Option Interface
  | none, _ => none
  | some m, k => m.get? k

/-- The error value built by `fmt.Errorf` with a format that has no `%w` verb:
it carries only its message. -/
structure ErrorString where
  s : String
  deriving DecidableEq, Repr

/-- Go `fmt.Errorf(format ++ "%+v", err)` for a format that is literal text
followed by one `%+v` verb: the literal text followed by the rendering of the
error under `%+v`, which `fmtPlusV` supplies. -/
def Errorf {ε : Type} (fmtPlusV : ε → String) (text : String) (err : ε) : ErrorString :=
  ⟨text ++ fmtPlusV err⟩

/-! ## Data model -/

/-- Kubernetes `runtime.RawExtension`: the serialized bytes and the optional
already-decoded object (kept abstract, by its kind). -/
structure RawExtension where
  Raw : List Byte
  Object : Option String
  deriving DecidableEq, Repr

/-- A unit of `extensionsv1alpha1.OperatingSystemConfigSpec.Units`. -/
structure OSCUnit where
  Name : String
  Content : Option String
  deriving DecidableEq, Repr

/-- A file of `extensionsv1alpha1.OperatingSystemConfigSpec.Files`. -/
structure OSCFile where
  Path : String
  Permissions : Option Nat
  Content : String
  deriving DecidableEq, Repr

/-- The fields of `extensionsv1alpha1.OperatingSystemConfigSpec`: the type
discriminator and provider payload of its `DefaultSpec`, and the operational
fields. -/
structure OperatingSystemConfigSpec where
  Type_ : String
  ProviderConfig : Option RawExtension
  Purpose : String
  ReloadConfigFilePath : Option String
  Units : List OSCUnit
  Files : List OSCFile
  deriving DecidableEq, Repr

/-- The object `extensionsv1alpha1.OperatingSystemConfig` that the resolver
receives. -/
structure OperatingSystemConfig where
  Name : String
  Spec : OperatingSystemConfigSpec
  deriving DecidableEq, Repr

/-- Modelled from the spec: the type `gardenlinux.OperatingSystemConfiguration`
of `pkg/apis/gardenlinux`, whose declaration is not among the sources. The spec
describes it as a structured record with one optional field,
`LinuxSecurityModule` (string, absent or present); the Go field is a pointer,
nil when absent. -/
structure OperatingSystemConfiguration where
  LinuxSecurityModule : Option String
  deriving DecidableEq, Repr

/-- The package-level `decoder` (a `runtime.Decoder`), reduced to the one call
the resolver makes: `Decode(data, nil, into)` receives the bytes and the object
to fill, and leaves the object in some state together with an error or nil.
The errors are of an arbitrary type `ε`. -/
structure Decoder (ε : Type) where
  Decode : List Byte → OperatingSystemConfiguration → OperatingSystemConfiguration × Option ε

/-! ## The resolver -/

/-- The values-resolver callback of `init` (generator.go, lines 55-78).
`OSTypeGardenLinux` is the constant `gardenlinux.OSTypeGardenLinux`, whose
declaration is not among the sources, `decoder` is the package-level decoder
and `fmtPlusV` renders a decoder error under the `%+v` verb. The result is the
Go pair `(map[string]interface{}, error)`, each component `none` when nil. -/
def valuesResolver {ε : Type} (OSTypeGardenLinux : String) (fmtPlusV : ε → String)
    (decoder : Decoder ε) (osc : OperatingSystemConfig) :
    Option GoMap × Option ErrorString :=
  if osc.Spec.Type_ ≠ OSTypeGardenLinux then
    (none, none)
  else
    let values : GoMap := [("LinuxSecurityModule", Interface.string "AppArmor")]
    match osc.Spec.ProviderConfig with
    | none => (some values, none)
    | some providerConfig =>
      let obj : OperatingSystemConfiguration := ⟨none⟩
      match decoder.Decode providerConfig.Raw obj with
      | (_, some err) =>
        (none, some (Errorf fmtPlusV "failed to decode provider config: " err))
      | (obj, none) =>
        match obj.LinuxSecurityModule with
        | some lsm => (some (values.set "LinuxSecurityModule" (Interface.string lsm)), none)
        | none => (some values, none)

/-! ## Sample inputs -/

/-- A sample decoder over a toy wire format. Empty input is rejected; a first
byte 0 yields a configuration without the field; a first byte 1 yields a
configuration whose field is the remaining bytes read as characters; any other
first byte is rejected. A rejected input leaves the object as it was. -/
def sampleDecoder : Decoder String where
  Decode := fun data into =>
    match data with
    | [] => (into, some "EOF")
    | b :: rest =>
      if b.val = 0 then (⟨none⟩, none)
      else if b.val = 1 then (⟨some (String.mk (rest.map (fun c => Char.ofNat c.val)))⟩, none)
      else (into, some "no kind registered")

/-- A sample object of the Garden Linux type without provider payload. -/
def oscNoPayload : OperatingSystemConfig :=
  ⟨"worker", ⟨"gardenlinux", none, "provision", none, [⟨"unit1", some "[Unit]"⟩], []⟩⟩

/-- A sample object of the Garden Linux type with the given payload bytes. -/
def oscWithPayload (raw : List Byte) : OperatingSystemConfig :=
  ⟨"worker", ⟨"gardenlinux", some ⟨raw, none⟩, "reconcile", none, [],
    [⟨"/var/lib/kubelet/ca.crt", some 420, "secretRef"⟩]⟩⟩

/-- A sample object of another operating system type, with payload bytes. -/
def oscOtherType : OperatingSystemConfig :=
  ⟨"worker", ⟨"suse-chost", some ⟨[1, 83, 69], none⟩, "provision", none, [], []⟩⟩

/-- A sample object with the type and payload bytes of `oscWithPayload raw` and
every other field different. -/
def oscWithPayloadOther (raw : List Byte) : OperatingSystemConfig :=
  ⟨"pool-2", ⟨"gardenlinux", some ⟨raw, some "OperatingSystemConfiguration"⟩, "provision",
    some "/var/lib/osc-reload", [⟨"unit1", some "[Unit]"⟩, ⟨"unit2", none⟩], []⟩⟩

/-! ## Properties -/

/-- C1: when `Spec.Type_` is not the Garden Linux type marker, the resolver
returns `(nil, nil)` whatever the provider payload is and whatever the decoder
does. -/
theorem C1_type_mismatch_returns_nil_nil {ε : Type} (OSTypeGardenLinux : String)
    (fmtPlusV : ε → String) (decoder : Decoder ε) (osc : OperatingSystemConfig)
    (h : osc.Spec.Type_ ≠ OSTypeGardenLinux) :
    valuesResolver OSTypeGardenLinux fmtPlusV decoder osc = (none, none) := by
  simp [valuesResolver, h]

/-- C1 at a sample object of another type that carries a decodable payload. -/
theorem C1_type_mismatch_witness :
    oscOtherType.Spec.Type_ ≠ "gardenlinux" ∧
      valuesResolver "gardenlinux" id sampleDecoder oscOtherType = (none, none) :=
  ⟨by decide, C1_type_mismatch_returns_nil_nil "gardenlinux" id sampleDecoder oscOtherType
    (by decide)⟩

/-- C2: with the Garden Linux type and no provider payload the resolver returns
no error and exactly the map `LinuxSecurityModule ↦ "AppArmor"`, for every
decoder. -/
theorem C2_no_payload_returns_default {ε : Type} (OSTypeGardenLinux : String)
    (fmtPlusV : ε → String) (decoder : Decoder ε) (osc : OperatingSystemConfig)
    (hType : osc.Spec.Type_ = OSTypeGardenLinux) (hNil : osc.Spec.ProviderConfig = none) :
    valuesResolver OSTypeGardenLinux fmtPlusV decoder osc =
      (some [("LinuxSecurityModule", Interface.string "AppArmor")], none) := by
  simp [valuesResolver, hType, hNil]

/-- C2 at the sample object without payload. -/
theorem C2_no_payload_witness :
    valuesResolver "gardenlinux" id sampleDecoder oscNoPayload =
      (some [("LinuxSecurityModule", Interface.string "AppArmor")], none) :=
  C2_no_payload_returns_default "gardenlinux" id sampleDecoder oscNoPayload (by decide) (by decide)

/-- C3: with the Garden Linux type and a payload that decodes without error to a
configuration whose `LinuxSecurityModule` is present and equal to `S`, the
resolver returns no error and exactly the map `LinuxSecurityModule ↦ S`. -/
theorem C3_override_returns_decoded_value {ε : Type} (OSTypeGardenLinux : String)
    (fmtPlusV : ε → String) (decoder : Decoder ε) (osc : OperatingSystemConfig)
    (providerConfig : RawExtension) (obj : OperatingSystemConfiguration) (S : String)
    (hType : osc.Spec.Type_ = OSTypeGardenLinux)
    (hSome : osc.Spec.ProviderConfig = some providerConfig)
    (hDecode : decoder.Decode providerConfig.Raw ⟨none⟩ = (obj, none))
    (hField : obj.LinuxSecurityModule = some S) :
    valuesResolver OSTypeGardenLinux fmtPlusV decoder osc =
      (some [("LinuxSecurityModule", Interface.string S)], none) := by
  simp [valuesResolver, hType, hSome, hDecode, hField, GoMap.set]

/-- C3 at a sample payload that decodes to `SELinux`. -/
theorem C3_override_witness :
    valuesResolver "gardenlinux" id sampleDecoder
        (oscWithPayload [1, 83, 69, 76, 105, 110, 117, 120]) =
      (some [("LinuxSecurityModule", Interface.string "SELinux")], none) :=
  C3_override_returns_decoded_value "gardenlinux" id sampleDecoder
    (oscWithPayload [1, 83, 69, 76, 105, 110, 117, 120])
    ⟨[1, 83, 69, 76, 105, 110, 117, 120], none⟩ ⟨some "SELinux"⟩ "SELinux"
    (by decide) (by decide) (by decide) (by decide)

/-- C4: with the Garden Linux type and a payload that decodes without error to a
configuration whose `LinuxSecurityModule` is absent, the resolver returns no
error and the default map, the result it gives without payload. -/
theorem C4_absent_field_keeps_default {ε : Type} (OSTypeGardenLinux : String)
    (fmtPlusV : ε → String) (decoder : Decoder ε) (osc : OperatingSystemConfig)
    (providerConfig : RawExtension) (obj : OperatingSystemConfiguration)
    (hType : osc.Spec.Type_ = OSTypeGardenLinux)
    (hSome : osc.Spec.ProviderConfig = some providerConfig)
    (hDecode : decoder.Decode providerConfig.Raw ⟨none⟩ = (obj, none))
    (hField : obj.LinuxSecurityModule = none) :
    valuesResolver OSTypeGardenLinux fmtPlusV decoder osc =
        (some [("LinuxSecurityModule", Interface.string "AppArmor")], none) ∧
      ∀ osc0 : OperatingSystemConfig, osc0.Spec.Type_ = OSTypeGardenLinux →
        osc0.Spec.ProviderConfig = none →
        valuesResolver OSTypeGardenLinux fmtPlusV decoder osc =
          valuesResolver OSTypeGardenLinux fmtPlusV decoder osc0 := by
  have hres : valuesResolver OSTypeGardenLinux fmtPlusV decoder osc =
      (some [("LinuxSecurityModule", Interface.string "AppArmor")], none) := by
    simp [valuesResolver, hType, hSome, hDecode, hField]
  refine ⟨hres, ?_⟩
  intro osc0 hType0 hNil0
  rw [hres]
  simp [valuesResolver, hType0, hNil0]

/-- C4 at a sample payload that decodes to a configuration without the field. -/
theorem C4_absent_field_witness :
    valuesResolver "gardenlinux" id sampleDecoder (oscWithPayload [0]) =
        (some [("LinuxSecurityModule", Interface.string "AppArmor")], none) ∧
      ∀ osc0 : OperatingSystemConfig, osc0.Spec.Type_ = "gardenlinux" →
        osc0.Spec.ProviderConfig = none →
        valuesResolver "gardenlinux" id sampleDecoder (oscWithPayload [0]) =
          valuesResolver "gardenlinux" id sampleDecoder osc0 :=
  C4_absent_field_keeps_default "gardenlinux" id sampleDecoder (oscWithPayload [0])
    ⟨[0], none⟩ ⟨none⟩ (by decide) (by decide) (by decide) (by decide)

/-- C5: with the Garden Linux type and a present payload whose decoding fails
with error `e`, the resolver returns a nil map and a non-nil error whose message
is `failed to decode provider config: ` followed by the `%+v` rendering of `e`. -/
theorem C5_decode_failure_returns_error {ε : Type} (OSTypeGardenLinux : String)
    (fmtPlusV : ε → String) (decoder : Decoder ε) (osc : OperatingSystemConfig)
    (providerConfig : RawExtension) (obj : OperatingSystemConfiguration) (e : ε)
    (hType : osc.Spec.Type_ = OSTypeGardenLinux)
    (hSome : osc.Spec.ProviderConfig = some providerConfig)
    (hDecode : decoder.Decode providerConfig.Raw ⟨none⟩ = (obj, some e)) :
    valuesResolver OSTypeGardenLinux fmtPlusV decoder osc =
      (none, some ⟨"failed to decode provider config: " ++ fmtPlusV e⟩) := by
  simp [valuesResolver, hType, hSome, hDecode, Errorf]

/-- C5 at a sample payload whose first byte the sample decoder rejects. -/
theorem C5_decode_failure_witness :
    valuesResolver "gardenlinux" id sampleDecoder (oscWithPayload [123, 34]) =
      (none, some ⟨"failed to decode provider config: " ++ id "no kind registered"⟩) :=
  C5_decode_failure_returns_error "gardenlinux" id sampleDecoder (oscWithPayload [123, 34])
    ⟨[123, 34], none⟩ ⟨none⟩ "no kind registered" (by decide) (by decide) (by decide)

/-- C6, as the claim states it, fails: the sample object of another type makes
the resolver return without an error, and the map it returns is nil, so it has
no key at all and no entry for `LinuxSecurityModule`. -/
theorem C6_counterexample :
    (valuesResolver "gardenlinux" id sampleDecoder oscOtherType).2 = none ∧
      ¬ (mapLen (valuesResolver "gardenlinux" id sampleDecoder oscOtherType).1 = 1 ∧
          ∃ s : String,
            mapIndex (valuesResolver "gardenlinux" id sampleDecoder oscOtherType).1
              "LinuxSecurityModule" = some (Interface.string s)) := by
  refine ⟨by decide, ?_⟩
  intro h
  exact absurd h.1 (by decide)

/-- C6, amended: for every object of the Garden Linux type, whenever the
resolver returns without an error, the returned map is non-nil and contains
exactly one key, `LinuxSecurityModule`, bound to a string value. -/
theorem C6_success_map_has_exactly_one_key {ε : Type} (OSTypeGardenLinux : String)
    (fmtPlusV : ε → String) (decoder : Decoder ε) (osc : OperatingSystemConfig)
    (hType : osc.Spec.Type_ = OSTypeGardenLinux)
    (hErr : (valuesResolver OSTypeGardenLinux fmtPlusV decoder osc).2 = none) :
    ∃ s : String,
      (valuesResolver OSTypeGardenLinux fmtPlusV decoder osc).1 =
          some [("LinuxSecurityModule", Interface.string s)] ∧
        mapLen (valuesResolver OSTypeGardenLinux fmtPlusV decoder osc).1 = 1 ∧
        mapIndex (valuesResolver OSTypeGardenLinux fmtPlusV decoder osc).1
          "LinuxSecurityModule" = some (Interface.string s) ∧
        ∀ k : String, k ≠ "LinuxSecurityModule" →
          mapIndex (valuesResolver OSTypeGardenLinux fmtPlusV decoder osc).1 k = none := by
  have key : ∃ s : String, (valuesResolver OSTypeGardenLinux fmtPlusV decoder osc).1 =
      some [("LinuxSecurityModule", Interface.string s)] := by
    unfold valuesResolver at hErr ⊢
    simp only [hType, ne_eq, not_true_eq_false, if_false] at hErr ⊢
    cases hpc : osc.Spec.ProviderConfig with
    | none => exact ⟨"AppArmor", by simp⟩
    | some pc =>
      rw [hpc] at hErr
      rcases hd : decoder.Decode pc.Raw ⟨none⟩ with ⟨obj, _ | e⟩
      · cases hf : obj.LinuxSecurityModule with
        | none => exact ⟨"AppArmor", by simp [hd, hf]⟩
        | some lsm => exact ⟨lsm, by simp [hd, hf, GoMap.set]⟩
      · simp [hd] at hErr
  obtain ⟨s, hs⟩ := key
  refine ⟨s, hs, ?_, ?_, ?_⟩
  · rw [hs]; rfl
  · rw [hs]; simp [mapIndex, GoMap.get?]
  · intro k hk
    rw [hs]
    simp [mapIndex, GoMap.get?, Ne.symm hk]

/-- C6, amended, at a sample payload that decodes to `SE`. -/
theorem C6_success_map_witness :
    ∃ s : String,
      (valuesResolver "gardenlinux" id sampleDecoder (oscWithPayload [1, 83, 69])).1 =
          some [("LinuxSecurityModule", Interface.string s)] ∧
        mapLen (valuesResolver "gardenlinux" id sampleDecoder (oscWithPayload [1, 83, 69])).1
          = 1 ∧
        mapIndex (valuesResolver "gardenlinux" id sampleDecoder (oscWithPayload [1, 83, 69])).1
          "LinuxSecurityModule" = some (Interface.string s) ∧
        ∀ k : String, k ≠ "LinuxSecurityModule" →
          mapIndex (valuesResolver "gardenlinux" id sampleDecoder
            (oscWithPayload [1, 83, 69])).1 k = none :=
  C6_success_map_has_exactly_one_key "gardenlinux" id sampleDecoder (oscWithPayload [1, 83, 69])
    (by decide) (by decide)

/-- C7: with the Garden Linux type and a payload that decodes to a configuration
whose `LinuxSecurityModule` is present and empty, the resolver returns the map
`LinuxSecurityModule ↦ ""`, and this differs from what it returns for any object
of the Garden Linux type whose payload decodes to a configuration without the
field, which is the default map. -/
theorem C7_empty_override_distinct_from_absent {ε : Type} (OSTypeGardenLinux : String)
    (fmtPlusV : ε → String) (decoder : Decoder ε)
    (osc : OperatingSystemConfig) (providerConfig : RawExtension)
    (obj : OperatingSystemConfiguration)
    (oscAbsent : OperatingSystemConfig) (providerConfigAbsent : RawExtension)
    (objAbsent : OperatingSystemConfiguration)
    (hType : osc.Spec.Type_ = OSTypeGardenLinux)
    (hSome : osc.Spec.ProviderConfig = some providerConfig)
    (hDecode : decoder.Decode providerConfig.Raw ⟨none⟩ = (obj, none))
    (hField : obj.LinuxSecurityModule = some "")
    (hTypeAbsent : oscAbsent.Spec.Type_ = OSTypeGardenLinux)
    (hSomeAbsent : oscAbsent.Spec.ProviderConfig = some providerConfigAbsent)
    (hDecodeAbsent : decoder.Decode providerConfigAbsent.Raw ⟨none⟩ = (objAbsent, none))
    (hFieldAbsent : objAbsent.LinuxSecurityModule = none) :
    valuesResolver OSTypeGardenLinux fmtPlusV decoder osc =
        (some [("LinuxSecurityModule", Interface.string "")], none) ∧
      valuesResolver OSTypeGardenLinux fmtPlusV decoder oscAbsent =
        (some [("LinuxSecurityModule", Interface.string "AppArmor")], none) ∧
      valuesResolver OSTypeGardenLinux fmtPlusV decoder osc ≠
        valuesResolver OSTypeGardenLinux fmtPlusV decoder oscAbsent := by
  have h1 : valuesResolver OSTypeGardenLinux fmtPlusV decoder osc =
      (some [("LinuxSecurityModule", Interface.string "")], none) := by
    simp [valuesResolver, hType, hSome, hDecode, hField, GoMap.set]
  have h2 : valuesResolver OSTypeGardenLinux fmtPlusV decoder oscAbsent =
      (some [("LinuxSecurityModule", Interface.string "AppArmor")], none) := by
    simp [valuesResolver, hTypeAbsent, hSomeAbsent, hDecodeAbsent, hFieldAbsent]
  refine ⟨h1, h2, ?_⟩
  rw [h1, h2]
  decide

/-- C7 at sample payloads: `[1]` decodes to the field present and empty, `[0]`
to the field absent. -/
theorem C7_empty_override_witness :
    valuesResolver "gardenlinux" id sampleDecoder (oscWithPayload [1]) =
        (some [("LinuxSecurityModule", Interface.string "")], none) ∧
      valuesResolver "gardenlinux" id sampleDecoder (oscWithPayload [0]) =
        (some [("LinuxSecurityModule", Interface.string "AppArmor")], none) ∧
      valuesResolver "gardenlinux" id sampleDecoder (oscWithPayload [1]) ≠
        valuesResolver "gardenlinux" id sampleDecoder (oscWithPayload [0]) :=
  C7_empty_override_distinct_from_absent "gardenlinux" id sampleDecoder
    (oscWithPayload [1]) ⟨[1], none⟩ ⟨some ""⟩ (oscWithPayload [0]) ⟨[0], none⟩ ⟨none⟩
    (by decide) (by decide) (by decide) (by decide)
    (by decide) (by decide) (by decide) (by decide)

/-- C8: for a fixed decoder the result of the resolver is a function of
`Spec.Type_` and of the presence and bytes of `Spec.ProviderConfig` alone: two
objects that agree on these get the same pair of map and error, whatever their
other fields are. -/
theorem C8_resolver_deterministic {ε : Type} (OSTypeGardenLinux : String)
    (fmtPlusV : ε → String) (decoder : Decoder ε) (osc1 osc2 : OperatingSystemConfig)
    (hType : osc1.Spec.Type_ = osc2.Spec.Type_)
    (hRaw : osc1.Spec.ProviderConfig.map RawExtension.Raw =
      osc2.Spec.ProviderConfig.map RawExtension.Raw) :
    valuesResolver OSTypeGardenLinux fmtPlusV decoder osc1 =
      valuesResolver OSTypeGardenLinux fmtPlusV decoder osc2 := by
  unfold valuesResolver
  rw [hType]
  cases h1 : osc1.Spec.ProviderConfig with
  | none =>
    cases h2 : osc2.Spec.ProviderConfig with
    | none => rfl
    | some pc2 => simp [h1, h2] at hRaw
  | some pc1 =>
    cases h2 : osc2.Spec.ProviderConfig with
    | none => simp [h1, h2] at hRaw
    | some pc2 =>
      have hpc : pc1.Raw = pc2.Raw := by simpa [h1, h2] using hRaw
      simp only [hpc]

/-- C8 at two sample objects with the same type and payload bytes that differ in
name, purpose, reload path, units, files and the decoded object of the payload. -/
theorem C8_resolver_deterministic_witness :
    oscWithPayload [1, 83, 69] ≠ oscWithPayloadOther [1, 83, 69] ∧
      valuesResolver "gardenlinux" id sampleDecoder (oscWithPayload [1, 83, 69]) =
        valuesResolver "gardenlinux" id sampleDecoder (oscWithPayloadOther [1, 83, 69]) :=
  ⟨by decide, C8_resolver_deterministic "gardenlinux" id sampleDecoder
    (oscWithPayload [1, 83, 69]) (oscWithPayloadOther [1, 83, 69]) (by decide) (by decide)⟩

/-- C9: the resolver returns a non-nil error exactly when the type is the Garden
Linux type, the payload is present and decoding its bytes fails; and it returns
a nil map exactly when the type mismatches or it returns an error. -/
theorem C9_error_and_nil_map_conditions {ε : Type} (OSTypeGardenLinux : String)
    (fmtPlusV : ε → String) (decoder : Decoder ε) (osc : OperatingSystemConfig) :
    ((valuesResolver OSTypeGardenLinux fmtPlusV decoder osc).2 ≠ none ↔
        (osc.Spec.Type_ = OSTypeGardenLinux ∧
          ∃ providerConfig : RawExtension, osc.Spec.ProviderConfig = some providerConfig ∧
            (decoder.Decode providerConfig.Raw ⟨none⟩).2 ≠ none)) ∧
      ((valuesResolver OSTypeGardenLinux fmtPlusV decoder osc).1 = none ↔
        (osc.Spec.Type_ ≠ OSTypeGardenLinux ∨
          (valuesResolver OSTypeGardenLinux fmtPlusV decoder osc).2 ≠ none)) := by
  unfold valuesResolver
  by_cases hType : osc.Spec.Type_ = OSTypeGardenLinux
  · simp only [hType, ne_eq, not_true_eq_false, if_false, true_and, false_or]
    cases hpc : osc.Spec.ProviderConfig with
    | none => simp
    | some pc =>
      rcases hd : decoder.Decode pc.Raw ⟨none⟩ with ⟨obj, _ | e⟩
      · cases hf : obj.LinuxSecurityModule <;> simp [hd, hf]
      · simp [hd]
  · simp [hType]

/-- C10: with the Garden Linux type and a present payload whose bytes are empty,
the resolver hands the empty bytes to the decoder and its result is the
decoder's outcome on them: the wrapped error and a nil map when the decoder
fails, the decoded override or the default otherwise. In particular, when the
decoder rejects empty input the result is not the default map. -/
theorem C10_empty_payload_is_decoded {ε : Type} (OSTypeGardenLinux : String)
    (fmtPlusV : ε → String) (decoder : Decoder ε) (osc : OperatingSystemConfig)
    (providerConfig : RawExtension)
    (hType : osc.Spec.Type_ = OSTypeGardenLinux)
    (hSome : osc.Spec.ProviderConfig = some providerConfig)
    (hEmpty : providerConfig.Raw = []) :
    valuesResolver OSTypeGardenLinux fmtPlusV decoder osc =
        (match decoder.Decode [] ⟨none⟩ with
          | (_, some err) =>
            (none, some ⟨"failed to decode provider config: " ++ fmtPlusV err⟩)
          | (obj, none) =>
            match obj.LinuxSecurityModule with
            | some lsm => (some [("LinuxSecurityModule", Interface.string lsm)], none)
            | none => (some [("LinuxSecurityModule", Interface.string "AppArmor")], none)) ∧
      ((decoder.Decode [] ⟨none⟩).2 ≠ none →
        valuesResolver OSTypeGardenLinux fmtPlusV decoder osc ≠
          (some [("LinuxSecurityModule", Interface.string "AppArmor")], none)) := by
  have hres : valuesResolver OSTypeGardenLinux fmtPlusV decoder osc =
      (match decoder.Decode [] ⟨none⟩ with
        | (_, some err) =>
          (none, some ⟨"failed to decode provider config: " ++ fmtPlusV err⟩)
        | (obj, none) =>
          match obj.LinuxSecurityModule with
          | some lsm => (some [("LinuxSecurityModule", Interface.string lsm)], none)
          | none => (some [("LinuxSecurityModule", Interface.string "AppArmor")], none)) := by
    unfold valuesResolver
    simp only [hType, ne_eq, not_true_eq_false, if_false, hSome, hEmpty]
    rcases hd : decoder.Decode [] ⟨none⟩ with ⟨obj, _ | e⟩
    · cases hf : obj.LinuxSecurityModule <;> simp [hf, GoMap.set]
    · simp [Errorf]
  refine ⟨hres, ?_⟩
  intro hFail
  rw [hres]
  rcases hd : decoder.Decode [] ⟨none⟩ with ⟨obj, _ | e⟩
  · simp [hd] at hFail
  · simp

/-- C10 at the sample object with a present, empty payload: the sample decoder
rejects empty input, so the result is the wrapped error and not the default. -/
theorem C10_empty_payload_witness :
    valuesResolver "gardenlinux" id sampleDecoder (oscWithPayload []) =
        (none, some ⟨"failed to decode provider config: EOF"⟩) ∧
      valuesResolver "gardenlinux" id sampleDecoder (oscWithPayload []) ≠
        (some [("LinuxSecurityModule", Interface.string "AppArmor")], none) :=
  ⟨(C10_empty_payload_is_decoded "gardenlinux" id sampleDecoder (oscWithPayload [])
      ⟨[], none⟩ (by decide) (by decide) (by decide)).1,
    (C10_empty_payload_is_decoded "gardenlinux" id sampleDecoder (oscWithPayload [])
      ⟨[], none⟩ (by decide) (by decide) (by decide)).2 (by decide)⟩

end Gardenlinux
